import Mathlib

/-!
Shallow embedding of the DailyVibe (blogicum) blog application:
`src/blogicum/blog/models.py`, `src/blogicum/blog/forms.py` and
`src/blogicum/blog/views.py`.

Django machinery is embedded explicitly: the database is a `Store` value
holding the rows of every table, querysets become list operations,
`order_by("-pub_date")` becomes a merge sort with the comparison
`fun a b => b.pub_date ≤ a.pub_date`, and a view returns a `Response`
together with the store it leaves behind.  Pagination
(`paginator_page(posts, 10, request)`, views.py:40) only slices the ordered
queryset into pages of ten; the listings below are the full ordered
querysets.  `select_related` and the `comment_count` annotation only
decorate how rows are fetched and are not part of the data returned, so
they are omitted.
-/

namespace Blogicum

/-- A user of the site (Django's auth user): the fields the blog app reads. -/
structure User where
  id : Nat
  username : String
deriving Repr, DecidableEq

/-- blog/models.py:29 `Location`.  `created_at` is never read by the views
and is omitted.  `is_published` defaults to `true` (models.py:17). -/
structure Location where
  id : Nat
  name : String
  description : String
  slug : String
  is_published : Bool
deriving Repr, DecidableEq

/-- blog/models.py:56 `Category` (note: it has a `title` field, not `name`). -/
structure Category where
  id : Nat
  title : String
  description : String
  slug : String
  is_published : Bool
deriving Repr, DecidableEq

/-- blog/models.py:82 `Post`.  `pub_date` is a timestamp modelled as `Int`;
`location`/`category` are nullable foreign keys modelled as `Option` of the
referenced id; `image` is the stored file name.  `is_published` defaults to
`true` (models.py:17). -/
structure Post where
  id : Nat
  title : String
  text : String
  pub_date : Int
  author : Nat
  location : Option Nat
  category : Option Nat
  image : Option String
  is_published : Bool
deriving Repr, DecidableEq

/-- blog/models.py:135 `Comment`. -/
structure Comment where
  id : Nat
  text : String
  post : Nat
  author : Nat
deriving Repr, DecidableEq

/-- blog/models.py-level `Follow` row: a directed edge `user → following`.
The model is declared outside src (imported in views.py:10); its two
foreign keys are read in views.py:376-405. -/
structure Follow where
  id : Nat
  user : Nat
  following : Nat
deriving Repr, DecidableEq

/-- The database: one list of rows per table, plus the auto-increment
counters used when Django inserts a new row. -/
structure Store where
  users : List User
  locations : List Location
  categories : List Category
  posts : List Post
  comments : List Comment
  follows : List Follow
  nextLocationId : Nat
  nextCategoryId : Nat
  nextPostId : Nat
  nextFollowId : Nat
deriving Repr, DecidableEq

/-- Outcome of a view: a rendered template, a redirect, Django's Http404,
or an uncaught exception (Django turns it into a 500 server error). -/
inductive Target where
  | postDetailPage (post_id : Nat)
  | profilePage (username : String)
deriving Repr, DecidableEq

inductive Response where
  | renderPage (template : String)
  | redirectTo (t : Target)
  | notFound
  | serverError (msg : String)
deriving Repr, DecidableEq

/-- Outcome of a read-only page. -/
inductive PageResult (α : Type) where
  | ok (value : α)
  | notFound
deriving Repr, DecidableEq

/-- `Q(category__is_published=True)` (views.py:36): the join over a null
foreign key matches nothing, so a post without a category fails the
condition. -/
def categoryIsPublished (s : Store) (p : Post) : Bool :=
  match p.category with
  | none => false
  | some cid =>
    match s.categories.find? (fun c => c.id == cid) with
    | none => false
    | some c => c.is_published

/-- The filter applied by `filter_posts` (views.py:34-36):
`Q(is_published=True) & Q(category__is_published=True)`.  No condition on
`pub_date` appears there (`now` is imported at views.py:7 but never used). -/
def postPubliclyVisible (s : Store) (p : Post) : Bool :=
  p.is_published && categoryIsPublished s p

/-- `order_by("-pub_date")`: stable sort, newest first. -/
def sortByPubDateDesc (l : List Post) : List Post :=
  l.mergeSort (fun a b => b.pub_date ≤ a.pub_date)

/-- views.py:17 `filter_posts`. -/
def filter_posts (s : Store) (posts : List Post) : List Post :=
  sortByPubDateDesc (posts.filter (fun p => postPubliclyVisible s p))

/-- views.py:57 `index`: the ordered queryset behind `page_obj`. -/
def index (s : Store) : List Post :=
  filter_posts s s.posts

/-- views.py:74 `post_detail`: fetch by pk (404 when absent); when the
viewer is not the author, re-fetch from the filtered queryset (404 when the
post is filtered out).  `viewer = none` is the anonymous user, which never
equals a post's author. -/
def post_detail (s : Store) (viewer : Option Nat) (post_id : Nat) : PageResult Post :=
  match s.posts.find? (fun p => p.id == post_id) with
  | none => PageResult.notFound
  | some p =>
    if viewer ≠ some p.author then
      match (filter_posts s s.posts).find? (fun q => q.id == post_id) with
      | none => PageResult.notFound
      | some q => PageResult.ok q
    else PageResult.ok p

/-- views.py:102 `category_posts`:
`get_object_or_404(Category.objects.filter(is_published=True), slug=...)`,
then the filtered posts of that category.  The viewer is not consulted. -/
def category_posts (s : Store) (category_slug : String) : PageResult (Category × List Post) :=
  match s.categories.find? (fun c => c.is_published && c.slug == category_slug) with
  | none => PageResult.notFound
  | some c =>
    PageResult.ok (c, filter_posts s (s.posts.filter (fun p => p.category == some c.id)))

/-- views.py:117 `location_posts`: same shape as `category_posts`. -/
def location_posts (s : Store) (location_slug : String) : PageResult (Location × List Post) :=
  match s.locations.find? (fun l => l.is_published && l.slug == location_slug) with
  | none => PageResult.notFound
  | some l =>
    PageResult.ok (l, filter_posts s (s.posts.filter (fun p => p.location == some l.id)))

/-- views.py:376-379: the subscription check in `user_profile`, and the
existence check behind `is_following`.  The anonymous user has `id = None`,
which matches no `Follow.user_id`, hence `viewer = none` finds nothing. -/
def is_following (s : Store) (userId : Nat) (followingId : Nat) : Bool :=
  (s.follows.filter (fun f => f.user == userId && f.following == followingId)).length != 0

/-- The profile queryset (views.py:365-370): all posts of the profile's
user, ordered by `pub_date` descending — no visibility filter is applied. -/
def profilePosts (s : Store) (profileId : Nat) : List Post :=
  sortByPubDateDesc (s.posts.filter (fun p => p.author == profileId))

structure ProfilePage where
  profile : User
  page_obj : List Post
  is_subscriber : Bool
deriving Repr, DecidableEq

/-- views.py:362 `user_profile` (the second definition, which shadows the
first one at views.py:132). -/
def user_profile (s : Store) (viewer : Option Nat) (username : String) :
    PageResult ProfilePage :=
  match s.users.find? (fun u => u.username == username) with
  | none => PageResult.notFound
  | some u =>
    let subscr :=
      match viewer with
      | none => false
      | some vid => is_following s vid u.id
    PageResult.ok ⟨u, profilePosts s u.id, subscr⟩

/-- views.py:389 `user_follow`: `Follow.objects.create(...)` — no
duplicate or self-follow check. -/
def user_follow (s : Store) (user : User) (username : String) : Response × Store :=
  match s.users.find? (fun u => u.username == username) with
  | none => (Response.notFound, s)
  | some tgt =>
    (Response.redirectTo (Target.profilePage tgt.username),
     { s with follows := s.follows ++ [⟨s.nextFollowId, user.id, tgt.id⟩],
              nextFollowId := s.nextFollowId + 1 })

/-- views.py:399 `delete_follow`: `get_object_or_404(qs)` on the filtered
queryset calls `qs.get()` with no arguments: 404 when empty, the single row
when it is unique, and an uncaught `MultipleObjectsReturned` when two or
more rows match (duplicate edges are storable, see `user_follow`). -/
def delete_follow (s : Store) (user : User) (username : String) : Response × Store :=
  match s.users.find? (fun u => u.username == username) with
  | none => (Response.notFound, s)
  | some tgt =>
    match s.follows.filter (fun f => f.user == user.id && f.following == tgt.id) with
    | [] => (Response.notFound, s)
    | [f] =>
      (Response.redirectTo (Target.profilePage tgt.username),
       { s with follows := s.follows.filter (fun g => g.id != f.id) })
    | _ => (Response.serverError "MultipleObjectsReturned", s)

/-! ### The slug generator (views.py:220 `generate_slug`) -/

/-- Python's ASCII whitespace class `\s` = `[ \t\n\v\f\r]`.  After the
`unidecode` step the text is pure ASCII, so the ASCII class is the one the
regular expressions in `generate_slug` effectively use. -/
def pyIsSpace (c : Char) : Bool :=
  c.toNat = 32 || c.toNat = 9 || c.toNat = 10 || c.toNat = 11 || c.toNat = 12 || c.toNat = 13

/-- Python's ASCII word class `\w` = `[A-Za-z0-9_]` (on the post-`unidecode`
ASCII text). -/
def pyIsWordChar (c : Char) : Bool :=
  (97 ≤ c.toNat && c.toNat ≤ 122) || (65 ≤ c.toNat && c.toNat ≤ 90) ||
    (48 ≤ c.toNat && c.toNat ≤ 57) || c.toNat = 95

/-- The character class `[-\s]` of the second substitution (`'-'` has code
point 45). -/
def pyIsHyphenOrSpace (c : Char) : Bool :=
  c.toNat = 45 || pyIsSpace c

/-- Modelled from the spec: the third-party `unidecode` library called at
views.py:221 is not part of this repository.  Per the spec it
"transliterates to Latin script"; the library acts as the identity on ASCII
code points and maps every non-ASCII character to an ASCII string (possibly
empty when it has no transliteration).  A sample of its transliteration
table stands in for the full table. -/
def unidecodeChar (c : Char) : List Char :=
  if c.toNat < 128 then [c]
  else if c = 'é' then ['e']
  else if c = 'ж' then ['z', 'h']
  else if c = 'Ю' then ['I', 'u']
  else if c = 'ю' then ['i', 'u']
  else []

def unidecode (s : List Char) : List Char :=
  (s.map unidecodeChar).flatten

/-- `str.lower()` on the post-`unidecode` ASCII text: map `A-Z` to `a-z`. -/
def pyLowerChar (c : Char) : Char :=
  if 65 ≤ c.toNat ∧ c.toNat ≤ 90 then Char.ofNat (c.toNat + 32) else c

/-- The character set the spec allows in a slug: lowercase word characters
(`a-z`, `0-9`, `_`) and the hyphen. -/
def isSlugOutChar (c : Char) : Bool :=
  (97 ≤ c.toNat && c.toNat ≤ 122) || (48 ≤ c.toNat && c.toNat ≤ 57) ||
    c.toNat = 95 || c.toNat = 45

/-- `re.sub(r'[^\w\s-]', '', text)` (views.py:224): drop every character
that is not a word character, whitespace or a hyphen. -/
def dropForbiddenChars (s : List Char) : List Char :=
  s.filter (fun c => pyIsWordChar c || pyIsSpace c || c = '-')

/-- `re.sub(r'[-\s]+', '-', text)` (views.py:225): replace every maximal
run of hyphens/whitespace by a single hyphen.  The boolean argument records
whether the previous character belonged to such a run. -/
def collapseGo : Bool → List Char → List Char
  | _, [] => []
  | prevHS, c :: rest =>
    if pyIsHyphenOrSpace c then
      if prevHS then collapseGo true rest
      else '-' :: collapseGo true rest
    else c :: collapseGo false rest

def collapseHyphenSpaceRuns (s : List Char) : List Char :=
  collapseGo false s

/-- `text.strip('-')` (views.py:227). -/
def stripHyphens (s : List Char) : List Char :=
  (s.dropWhile (fun c => c == '-')).rdropWhile (fun c => c == '-')

/-- views.py:220 `generate_slug`. -/
def generate_slug (text : List Char) : List Char :=
  stripHyphens (collapseHyphenSpaceRuns (dropForbiddenChars
    ((unidecode text).map pyLowerChar)))

/-- `generate_slug` on `String`s, as called by `create_post`. -/
def generate_slugStr (text : String) : String :=
  String.mk (generate_slug text.data)

/-! ### The post form (forms.py:8 `PostForm`) -/

/-- The cleaned data of a bound `PostForm` whose field-level validation
succeeded: `location`/`category` hold the chosen row's pk (`none` when the
optional picklist was left empty), `location_user`/`category_user` hold the
stripped free text (`""` when left empty, the falsy value the `clean`
method tests). -/
structure PostFormInput where
  title : String
  text : String
  pub_date : Int
  location_user : String
  location : Option Nat
  category_user : String
  category : Option Nat
  image : Option String
deriving Repr, DecidableEq

def msgOnlyOneLoc : String :=
  "Выберите только одну из опций: \"Локация\" или \"Своя локация\"."

def msgNeedOne : String :=
  "Нужно выбрать хотя бы одну из опций."

def msgOnlyOneCat : String :=
  "Выберите только одну из опций: \"Категория\" или \"Своя категория\"."

/-- forms.py:51 `PostForm.clean`: the cross-field validation errors it
attaches, as `(field, message)` pairs. -/
def PostForm.clean (d : PostFormInput) : List (String × String) :=
  (if d.location.isSome && d.location_user ≠ "" then
     [("location", msgOnlyOneLoc)]
   else if d.location.isNone && d.location_user == "" then
     [("location", msgNeedOne)]
   else []) ++
  (if d.category.isSome && d.category_user ≠ "" then
     [("category", msgOnlyOneCat)]
   else if d.category.isNone && d.category_user == "" then
     [("category", msgNeedOne)]
   else [])

/-- `form.is_valid()` for `PostForm`: the required fields are present and
within their `max_length`, the picklist choices name existing rows
(`ModelChoiceField` rejects a pk outside its queryset), and `clean` attached
no error. -/
def PostForm.is_valid (s : Store) (d : PostFormInput) : Bool :=
  d.title ≠ "" && d.title.length ≤ 256 && d.text ≠ "" &&
  d.location_user.length ≤ 256 && d.category_user.length ≤ 256 &&
  (match d.location with
   | none => true
   | some lid => (s.locations.find? (fun l => l.id == lid)).isSome) &&
  (match d.category with
   | none => true
   | some cid => (s.categories.find? (fun c => c.id == cid)).isSome) &&
  PostForm.clean d == []

/-! ### The mutating post views -/

/-- views.py:252-261, the location arm of `create_post`: use the picked
row, else reuse the row found by `Location.objects.get(name=...)`, else
`Location.objects.create(name=..., slug=generate_slug(...))`.  `get` raises
`MultipleObjectsReturned` when several rows share the name, and the
database's unique constraint on `slug` (models.py:42) raises
`IntegrityError` when the generated slug is already taken; either uncaught
exception surfaces as a server error with the store unchanged. -/
def resolveLocationArm (s : Store) (d : PostFormInput) :
    Except String (Store × Nat) :=
  match d.location with
  | some lid => Except.ok (s, lid)
  | none =>
    match s.locations.filter (fun l => l.name == d.location_user) with
    | [] =>
      let newSlug := generate_slugStr d.location_user
      if s.locations.any (fun l => l.slug == newSlug) then
        Except.error "IntegrityError: duplicate slug"
      else
        Except.ok
          ({ s with
             locations := s.locations ++
               [⟨s.nextLocationId, d.location_user, "", newSlug, true⟩],
             nextLocationId := s.nextLocationId + 1 },
           s.nextLocationId)
    | [l] => Except.ok (s, l.id)
    | _ => Except.error "MultipleObjectsReturned"

/-- views.py:263-272, the category arm of `create_post`.  The reuse branch
executes `Category.objects.get(name=form.cleaned_data['category_user'])`
(views.py:268-269), but `Category` has no field called `name`
(models.py:56-72: its fields are `title`, `description`, `slug`,
`is_published`, `created_at`), so building that query raises `FieldError`
whenever a category with the submitted title already exists. -/
def resolveCategoryArm (s : Store) (d : PostFormInput) :
    Except String (Store × Nat) :=
  match d.category with
  | some cid => Except.ok (s, cid)
  | none =>
    if s.categories.any (fun c => c.title == d.category_user) then
      Except.error "FieldError: cannot resolve keyword name into field"
    else
      let newSlug := generate_slugStr d.category_user
      if s.categories.any (fun c => c.slug == newSlug) then
        Except.error "IntegrityError: duplicate slug"
      else
        Except.ok
          ({ s with
             categories := s.categories ++
               [⟨s.nextCategoryId, d.category_user, "", newSlug, true⟩],
             nextCategoryId := s.nextCategoryId + 1 },
           s.nextCategoryId)

/-- views.py:232 `create_post`: on a valid form, build a fresh `Post`
(its `is_published` is never assigned, so it keeps the model default
`true`), resolve location then category, save, and redirect to the author's
profile.  An invalid form re-renders the page. -/
def create_post (s : Store) (user : User) (d : PostFormInput) : Response × Store :=
  if PostForm.is_valid s d then
    match resolveLocationArm s d with
    | Except.error e => (Response.serverError e, s)
    | Except.ok (s1, locId) =>
      match resolveCategoryArm s1 d with
      | Except.error e => (Response.serverError e, s1)
      | Except.ok (s2, catId) =>
        (Response.redirectTo (Target.profilePage user.username),
         { s2 with
           posts := s2.posts ++
             [⟨s2.nextPostId, d.title, d.text, d.pub_date, user.id,
               some locId, some catId, d.image, true⟩],
           nextPostId := s2.nextPostId + 1 })
  else (Response.renderPage "blog/create.html", s)

/-- views.py:281 `edit_post`: 404 when the post does not exist, a silent
redirect to the post's detail page when the viewer is not the author.  On a
valid form the handler assigns the instance's fields and then evaluates
`data['is_published']` (views.py:315) — but `PostForm` (forms.py:22-49)
declares no `is_published` field, so `cleaned_data` has no such key and the
lookup raises `KeyError` before `instance.save()` (views.py:322) runs: the
store is left unchanged and the response is a server error. -/
def edit_post (s : Store) (user : User) (post_id : Nat) (d : PostFormInput) :
    Response × Store :=
  match s.posts.find? (fun p => p.id == post_id) with
  | none => (Response.notFound, s)
  | some p =>
    if user.id ≠ p.author then
      (Response.redirectTo (Target.postDetailPage post_id), s)
    else if PostForm.is_valid s d then
      (Response.serverError "KeyError: is_published", s)
    else (Response.renderPage "blog/create.html", s)

/-- views.py:333 `delete_post`: 404 when absent, silent redirect for a
non-author; a POST request deletes the post (comments cascade,
models.py:148) and redirects to the author's profile; a GET renders the
confirmation page. -/
def delete_post (s : Store) (user : User) (post_id : Nat) (isPostMethod : Bool) :
    Response × Store :=
  match s.posts.find? (fun p => p.id == post_id) with
  | none => (Response.notFound, s)
  | some p =>
    if user.id ≠ p.author then
      (Response.redirectTo (Target.postDetailPage post_id), s)
    else if isPostMethod then
      (Response.redirectTo (Target.profilePage user.username),
       { s with
         posts := s.posts.filter (fun q => q.id != p.id),
         comments := s.comments.filter (fun c => c.post != p.id) })
    else (Response.renderPage "blog/create.html", s)

/-! ### The comment views -/

/-- `CommentForm.is_valid()`: the single required `text` field is
non-empty. -/
def CommentForm.is_valid (text : String) : Bool :=
  text ≠ ""

/-- views.py:181 `edit_comment`: 404 when the comment does not exist, a
silent redirect to the post's detail page when the viewer is not the
author, otherwise save the edited text (the handler also re-assigns the
comment's author to the requesting user, views.py:196) and redirect. -/
def edit_comment (s : Store) (user : User) (post_id comment_id : Nat)
    (text : String) : Response × Store :=
  match s.comments.find? (fun c => c.id == comment_id) with
  | none => (Response.notFound, s)
  | some c =>
    if user.id ≠ c.author then
      (Response.redirectTo (Target.postDetailPage post_id), s)
    else if CommentForm.is_valid text then
      (Response.redirectTo (Target.postDetailPage post_id),
       { s with
         comments := s.comments.map (fun c' =>
           if c'.id == comment_id then { c' with text := text, author := user.id }
           else c') })
    else (Response.renderPage "blog/comment.html", s)

/-- views.py:203 `delete_comment`: 404 when absent, silent redirect for a
non-author; a POST request deletes the comment and redirects; a GET renders
the confirmation page. -/
def delete_comment (s : Store) (user : User) (post_id comment_id : Nat)
    (isPostMethod : Bool) : Response × Store :=
  match s.comments.find? (fun c => c.id == comment_id) with
  | none => (Response.notFound, s)
  | some c =>
    if user.id ≠ c.author then
      (Response.redirectTo (Target.postDetailPage post_id), s)
    else if isPostMethod then
      (Response.redirectTo (Target.postDetailPage post_id),
       { s with comments := s.comments.filter (fun c' => c'.id != c.id) })
    else (Response.renderPage "blog/comment.html", s)

/-! ### Concrete fixtures used by witnesses and counterexamples -/

def uAlice : User := ⟨1, "alice"⟩

def uBob : User := ⟨2, "bob"⟩

def catPub : Category := ⟨1, "Travel", "", "travel", true⟩

def locParis : Location := ⟨1, "Paris", "", "paris", true⟩

/-- A published post whose `pub_date` (100) lies in the future relative to
the reference instant 50 used below. -/
def futurePost : Post := ⟨1, "T", "x", 100, 1, none, some 1, none, true⟩

def storeFuture : Store :=
  ⟨[uAlice, uBob], [], [catPub], [futurePost], [], [], 1, 2, 2, 1⟩

def storeTravel : Store :=
  ⟨[uAlice], [locParis], [catPub], [], [], [], 2, 2, 1, 1⟩

/-- A creation input that picks the Paris location and types the free text
"Travel" for the category — which already exists as `catPub`. -/
def inputTravelReuse : PostFormInput := ⟨"T", "x", 0, "", some 1, "Travel", none, none⟩

def postByAlice : Post := ⟨1, "T", "x", 0, 1, some 1, some 1, none, true⟩

def storeEdit : Store :=
  ⟨[uAlice], [locParis], [catPub], [postByAlice], [], [], 2, 2, 2, 1⟩

/-- A valid edit input that supplies the location as free text. -/
def editInputFreeLoc : PostFormInput := ⟨"T2", "y", 5, "Rome", none, "", some 1, none⟩

def commentByAlice : Comment := ⟨1, "hi", 1, 1⟩

def storeOwned : Store :=
  ⟨[uAlice, uBob], [locParis], [catPub], [postByAlice], [commentByAlice], [], 2, 2, 2, 1⟩

def catUnpub : Category := ⟨2, "Hidden", "", "hidden", false⟩

def locUnpub : Location := ⟨2, "Secret", "", "secret", false⟩

def storeHidden : Store :=
  ⟨[uAlice], [locUnpub], [catUnpub], [], [], [], 3, 3, 1, 1⟩

/-- An unpublished post without a category, by alice. -/
def draftPost : Post := ⟨2, "D", "d", 200, 1, none, none, none, false⟩

def storeProfile : Store :=
  ⟨[uAlice, uBob], [], [catPub], [futurePost, draftPost], [], [], 1, 2, 3, 1⟩

/-- A store in which alice already follows bob (edge id 1). -/
def storeDup : Store :=
  ⟨[uAlice, uBob], [], [], [], [], [⟨1, 1, 2⟩], 1, 1, 1, 2⟩

/-- A store with no follow edges. -/
def storeClean : Store :=
  ⟨[uAlice, uBob], [], [], [], [], [], 1, 1, 1, 1⟩

/-- A form input with both location fields set and both category fields
empty. -/
def inputBothAndNeither : PostFormInput := ⟨"t", "x", 0, "Paris", some 1, "", none, none⟩

end Blogicum

namespace Blogicum

/-! ### C1: public listings and the pub_date condition -/

/-- C1.  The claim says a post appears in the public listings iff
`is_published ∧ category.is_published ∧ pub_date ≤ now`.  The code's
`filter_posts` (views.py:34-37) tests only the first two conjuncts
(`now` is imported at views.py:7 but never used), so `futurePost` — whose
`pub_date` 100 is strictly later than the reference instant 50 — is listed
on the index page, on its category's page, and on a location page query,
contradicting the claim's "absent until the scheduled time passes". -/
theorem c1_future_post_is_listed :
    futurePost ∈ index storeFuture
      ∧ (∃ v, category_posts storeFuture "travel" = PageResult.ok v ∧ futurePost ∈ v.2)
      ∧ (50 : Int) < futurePost.pub_date := by
  refine ⟨?_, ⟨(catPub, [futurePost]), ?_, by decide⟩, by decide⟩ <;>
    simp [index, category_posts, filter_posts, sortByPubDateDesc, postPubliclyVisible,
      categoryIsPublished, storeFuture, futurePost, catPub]

/-! ### C2: free-text category reuse crashes -/

/-- C2.  The claim says an existing `Category` with the submitted title is
reused.  The code's reuse branch (views.py:268-269) queries
`Category.objects.get(name=...)` although `Category` has no `name` field,
so the request dies with `FieldError` instead of reusing `catPub`. -/
theorem c2_category_reuse_crashes :
    create_post storeTravel uAlice inputTravelReuse
      = (Response.serverError "FieldError: cannot resolve keyword name into field",
         storeTravel) := by
  decide

/-! ### C5: owner override in post_detail -/

/-- C5.  The owner-override half of the claim holds, but the not-found half
fails: `post_detail` re-fetches through `filter_posts` (views.py:90-92),
which ignores `pub_date`, so a viewer who is not the author (bob, id 2)
still receives the future-dated `futurePost` instead of a not-found
outcome. -/
theorem c5_nonauthor_sees_future_post :
    post_detail storeFuture (some 2) 1 = PageResult.ok futurePost
      ∧ (50 : Int) < futurePost.pub_date := by
  refine ⟨?_, by decide⟩
  simp [post_detail, filter_posts, sortByPubDateDesc, postPubliclyVisible,
    categoryIsPublished, storeFuture, futurePost, catPub]

/-! ### C6: the association invariant and edit_post -/

/-- C6.  The claim speaks of "any successful create or edit operation",
but no edit can succeed: on every valid submission `edit_post` evaluates
`data['is_published']` (views.py:315) and `PostForm` declares no
`is_published` field, so the handler raises `KeyError` before saving.
Here alice validly edits her own post, supplying the location as free
text; the claim's invariant would require the stored location to be
resolved, and instead the request dies. -/
theorem c6_edit_always_crashes :
    PostForm.is_valid storeEdit editInputFreeLoc = true
      ∧ edit_post storeEdit uAlice 1 editInputFreeLoc
          = (Response.serverError "KeyError: is_published", storeEdit) := by
  exact ⟨by decide, by decide⟩

/-! ### C3: PostForm.clean -/

/-- C3.  Cross-field validation fails iff zero or two of
`{location, location_user}` are set or zero or two of
`{category, category_user}` are set; both-set and both-absent attach
distinct messages to the relevant field, and exactly-one-set passes. -/
theorem c3_clean_characterisation (d : PostFormInput) :
    (PostForm.clean d ≠ [] ↔
        ((d.location.isSome = true ∧ d.location_user ≠ "")
          ∨ (d.location = none ∧ d.location_user = "")
          ∨ (d.category.isSome = true ∧ d.category_user ≠ "")
          ∨ (d.category = none ∧ d.category_user = "")))
      ∧ (d.location.isSome = true → d.location_user ≠ "" →
          ("location", msgOnlyOneLoc) ∈ PostForm.clean d)
      ∧ (d.location = none → d.location_user = "" →
          ("location", msgNeedOne) ∈ PostForm.clean d)
      ∧ (d.category.isSome = true → d.category_user ≠ "" →
          ("category", msgOnlyOneCat) ∈ PostForm.clean d)
      ∧ (d.category = none → d.category_user = "" →
          ("category", msgNeedOne) ∈ PostForm.clean d)
      ∧ msgOnlyOneLoc ≠ msgNeedOne ∧ msgOnlyOneCat ≠ msgNeedOne := by
  obtain ⟨t, x, pd, lu, lo, cu, ca, im⟩ := d
  rcases lo with _ | lid <;> rcases ca with _ | cid <;>
    by_cases h1 : lu = "" <;> by_cases h2 : cu = "" <;>
      simp [PostForm.clean, h1, h2, msgOnlyOneLoc, msgNeedOne, msgOnlyOneCat]

/-- Witness for C3 at a concrete input: location both-set, category
both-absent. -/
theorem c3_witness :
    (PostForm.clean inputBothAndNeither ≠ [] ↔
        ((inputBothAndNeither.location.isSome = true ∧ inputBothAndNeither.location_user ≠ "")
          ∨ (inputBothAndNeither.location = none ∧ inputBothAndNeither.location_user = "")
          ∨ (inputBothAndNeither.category.isSome = true ∧ inputBothAndNeither.category_user ≠ "")
          ∨ (inputBothAndNeither.category = none ∧ inputBothAndNeither.category_user = ""))) := by
  exact (c3_clean_characterisation inputBothAndNeither).1

/-! ### C7: follow / unfollow -/

/-- C7, amended with the hypothesis that A is not already following B when
`follow` is called: after `user_follow` succeeds `is_following` is true, and
after the subsequent `delete_follow` it is false.  Without that hypothesis
the claim fails (see the counterexample): `Follow.objects.create` enforces
no uniqueness, and `delete_follow`'s `get_object_or_404` raises
`MultipleObjectsReturned` on a duplicate edge, deleting nothing. -/
theorem c7_follow_then_unfollow (s : Store) (A B : User)
    (hfind : s.users.find? (fun u => u.username == B.username) = some B)
    (hnot : is_following s A.id B.id = false) :
    (user_follow s A B.username).1 = Response.redirectTo (Target.profilePage B.username)
    ∧ is_following (user_follow s A B.username).2 A.id B.id = true
    ∧ is_following (delete_follow (user_follow s A B.username).2 A B.username).2 A.id B.id = false := by
  have hmt : s.follows.filter (fun f => f.user == A.id && f.following == B.id) = [] := by
    unfold is_following at hnot
    simpa using hnot
  have hfl : (s.follows ++ [(⟨s.nextFollowId, A.id, B.id⟩ : Follow)]).filter
      (fun f => f.user == A.id && f.following == B.id)
        = [(⟨s.nextFollowId, A.id, B.id⟩ : Follow)] := by
    rw [List.filter_append, hmt]
    simp
  refine ⟨by simp only [user_follow, hfind], ?_, ?_⟩
  · simp only [user_follow, hfind, is_following]
    rw [hfl]
    simp
  · simp only [user_follow, hfind, delete_follow, is_following]
    rw [hfl]
    simp only [List.filter_filter]
    rw [List.filter_append]
    have h1 : s.follows.filter (fun a =>
        (a.user == A.id && a.following == B.id) && (a.id != s.nextFollowId)) = [] := by
      rw [List.filter_eq_nil_iff]
      intro a ha
      have := (List.filter_eq_nil_iff.mp hmt) a ha
      simp_all
    rw [h1]
    simp

/-- Witness for C7: alice follows bob in a store with no prior edges. -/
theorem c7_witness :
    (user_follow storeClean uAlice "bob").1 = Response.redirectTo (Target.profilePage "bob")
    ∧ is_following (user_follow storeClean uAlice "bob").2 uAlice.id uBob.id = true
    ∧ is_following (delete_follow (user_follow storeClean uAlice "bob").2
        uAlice "bob").2 uAlice.id uBob.id = false :=
  c7_follow_then_unfollow storeClean uAlice uBob (by decide) (by decide)

/-- Counterexample to C7 as stated: in `storeDup` alice already follows
bob, so the follow call (which succeeds, first conjunct) leaves two edges
and the subsequent unfollow raises `MultipleObjectsReturned`, deleting
nothing — `is_following` is still true afterwards, where the claim says
false. -/
theorem c7_counterexample :
    (user_follow storeDup uAlice "bob").1 = Response.redirectTo (Target.profilePage "bob")
    ∧ is_following (delete_follow (user_follow storeDup uAlice "bob").2
        uAlice "bob").2 uAlice.id uBob.id = true := by
  exact ⟨by decide, by decide⟩

/-! ### C8: unpublished category / location pages -/

/-- C8.  A category (resp. location) whose `is_published` is false is
invisible to `get_object_or_404(...filter(is_published=True), slug=...)`
(views.py:104-107 and 119-122), so its listing page is not found — for
every viewer, since neither view reads the request's user.  The slug
uniqueness hypothesis mirrors `unique=True` on the slug columns
(models.py:42, 68). -/
theorem c8_unpublished_pages_not_found (s : Store) :
    (∀ c ∈ s.categories, c.is_published = false →
      (∀ c' ∈ s.categories, c'.slug = c.slug → c' = c) →
      category_posts s c.slug = PageResult.notFound)
    ∧ (∀ l ∈ s.locations, l.is_published = false →
      (∀ l' ∈ s.locations, l'.slug = l.slug → l' = l) →
      location_posts s l.slug = PageResult.notFound) := by
  constructor
  · intro c hc hpub huniq
    have hfind : s.categories.find? (fun c' => c'.is_published && c'.slug == c.slug) = none := by
      rw [List.find?_eq_none]
      intro x hx
      by_cases hs : x.slug = c.slug
      · have hxc := huniq x hx hs
        subst hxc
        simp [hpub]
      · simp [hs]
    simp [category_posts, hfind]
  · intro l hl hpub huniq
    have hfind : s.locations.find? (fun l' => l'.is_published && l'.slug == l.slug) = none := by
      rw [List.find?_eq_none]
      intro x hx
      by_cases hs : x.slug = l.slug
      · have hxl := huniq x hx hs
        subst hxl
        simp [hpub]
      · simp [hs]
    simp [location_posts, hfind]

/-- Witness for C8: the unpublished category "hidden" and location
"secret" of `storeHidden` both 404. -/
theorem c8_witness :
    category_posts storeHidden "hidden" = PageResult.notFound
    ∧ location_posts storeHidden "secret" = PageResult.notFound :=
  ⟨(c8_unpublished_pages_not_found storeHidden).1 catUnpub (by decide) rfl (by decide),
   (c8_unpublished_pages_not_found storeHidden).2 locUnpub (by decide) rfl (by decide)⟩

/-! ### C9: soft denial for non-authors -/

/-- C9.  A logged-in viewer who is not the author of a post (resp.
comment) and requests its edit or delete view is redirected to the
post's detail page with the store unchanged (views.py:285-286, 337-338,
185-186, 208-209). -/
theorem c9_nonauthor_soft_denial (s : Store) (user : User) (post_id comment_id : Nat)
    (d : PostFormInput) (txt : String) (m : Bool) :
    (∀ p, s.posts.find? (fun q => q.id == post_id) = some p → user.id ≠ p.author →
      edit_post s user post_id d = (Response.redirectTo (Target.postDetailPage post_id), s)
      ∧ delete_post s user post_id m = (Response.redirectTo (Target.postDetailPage post_id), s))
    ∧ (∀ c, s.comments.find? (fun q => q.id == comment_id) = some c → user.id ≠ c.author →
      edit_comment s user post_id comment_id txt = (Response.redirectTo (Target.postDetailPage post_id), s)
      ∧ delete_comment s user post_id comment_id m = (Response.redirectTo (Target.postDetailPage post_id), s)) := by
  constructor
  · intro p hp hne
    constructor
    · simp [edit_post, hp, hne]
    · simp [delete_post, hp, hne]
  · intro c hcm hne
    constructor
    · simp [edit_comment, hcm, hne]
    · simp [delete_comment, hcm, hne]

/-- Witness for C9: bob attempts to edit alice's post and to delete her
comment. -/
theorem c9_witness :
    edit_post storeOwned uBob 1 editInputFreeLoc
        = (Response.redirectTo (Target.postDetailPage 1), storeOwned)
    ∧ delete_comment storeOwned uBob 1 1 true
        = (Response.redirectTo (Target.postDetailPage 1), storeOwned) :=
  ⟨((c9_nonauthor_soft_denial storeOwned uBob 1 1 editInputFreeLoc "z" true).1
      postByAlice (by decide) (by decide)).1,
   ((c9_nonauthor_soft_denial storeOwned uBob 1 1 editInputFreeLoc "z" true).2
      commentByAlice (by decide) (by decide)).2⟩

/-! ### C10: the profile listing is unfiltered -/

/-- C10.  For every viewer (anonymous included), the profile page of an
existing user `u` lists exactly `u`'s posts — published or not, future
`pub_date` or not, category published or not — ordered by `pub_date`
descending (views.py:365-370 applies no visibility filter). -/
theorem c10_profile_lists_all (s : Store) (viewer : Option Nat) (username : String) (u : User)
    (hu : s.users.find? (fun x => x.username == username) = some u) :
    ∃ page, user_profile s viewer username = PageResult.ok page
      ∧ page.profile = u
      ∧ page.page_obj = profilePosts s u.id
      ∧ (∀ p : Post, p ∈ page.page_obj ↔ p ∈ s.posts ∧ p.author = u.id)
      ∧ List.Pairwise (fun a b : Post => b.pub_date ≤ a.pub_date) page.page_obj := by
  refine ⟨⟨u, profilePosts s u.id,
      match viewer with | none => false | some vid => is_following s vid u.id⟩,
    by simp only [user_profile, hu], rfl, rfl, ?_, ?_⟩
  · intro p
    simp [profilePosts, sortByPubDateDesc, List.mem_mergeSort, List.mem_filter]
  · have h := @List.sorted_mergeSort Post
      (fun a b : Post => decide (b.pub_date ≤ a.pub_date))
      (fun a b c hab hbc => by
        simp only [decide_eq_true_eq] at *
        omega)
      (fun a b => by
        simp only [Bool.or_eq_true, decide_eq_true_eq]
        omega)
      (s.posts.filter (fun p => p.author == u.id))
    exact h.imp (fun hab => by simpa using hab)

/-- Witness for C10: alice's profile in `storeProfile` — her posts are the
future-dated `futurePost` and the unpublished category-less `draftPost`. -/
theorem c10_witness :
    ∃ page, user_profile storeProfile none "alice" = PageResult.ok page
      ∧ page.profile = uAlice
      ∧ page.page_obj = profilePosts storeProfile uAlice.id
      ∧ (∀ p : Post, p ∈ page.page_obj ↔ p ∈ storeProfile.posts ∧ p.author = uAlice.id)
      ∧ List.Pairwise (fun a b : Post => b.pub_date ≤ a.pub_date) page.page_obj :=
  c10_profile_lists_all storeProfile none "alice" uAlice (by decide)


lemma char_toNat_inj {a b : Char} (h : a.toNat = b.toNat) : a = b := by
  have ha := Char.ofNat_toNat a
  have hb := Char.ofNat_toNat b
  rw [← ha, ← hb, h]

lemma pyLowerChar_toNat (c : Char) :
    (pyLowerChar c).toNat = if 65 ≤ c.toNat ∧ c.toNat ≤ 90 then c.toNat + 32 else c.toNat := by
  by_cases h : 65 ≤ c.toNat ∧ c.toNat ≤ 90
  · rw [pyLowerChar, if_pos h, if_pos h]
    obtain ⟨n, hn⟩ : ∃ n, c.toNat = n := ⟨_, rfl⟩
    obtain ⟨h1, h2⟩ := h
    rw [hn] at h1 h2 ⊢
    interval_cases n <;> rfl
  · rw [pyLowerChar, if_neg h, if_neg h]

lemma pyLowerChar_not_upper (c : Char) :
    ¬(65 ≤ (pyLowerChar c).toNat ∧ (pyLowerChar c).toNat ≤ 90) := by
  rw [pyLowerChar_toNat]
  split <;> omega

lemma pyLowerChar_ascii {c : Char} (h : c.toNat < 128) : (pyLowerChar c).toNat < 128 := by
  rw [pyLowerChar_toNat]
  split <;> omega

lemma pyLowerChar_fix {c : Char} (h : ¬(65 ≤ c.toNat ∧ c.toNat ≤ 90)) : pyLowerChar c = c := by
  rw [pyLowerChar, if_neg h]

lemma unidecodeChar_ascii {a c : Char} (h : c ∈ unidecodeChar a) : c.toNat < 128 := by
  unfold unidecodeChar at h
  split at h
  · next hlt =>
    simp only [List.mem_singleton] at h
    subst h
    exact hlt
  · split at h
    · simp only [List.mem_singleton] at h
      subst h
      decide
    · split at h
      · simp only [List.mem_cons, List.mem_singleton, List.not_mem_nil, or_false] at h
        rcases h with h | h <;> (subst h; decide)
      · split at h
        · simp only [List.mem_cons, List.mem_singleton, List.not_mem_nil, or_false] at h
          rcases h with h | h <;> (subst h; decide)
        · split at h
          · simp only [List.mem_cons, List.mem_singleton, List.not_mem_nil, or_false] at h
            rcases h with h | h <;> (subst h; decide)
          · simp at h

lemma unidecode_cons (a : Char) (t : List Char) :
    unidecode (a :: t) = unidecodeChar a ++ unidecode t := by
  simp [unidecode]

lemma unidecode_ascii {s : List Char} : ∀ c ∈ unidecode s, c.toNat < 128 := by
  intro c hc
  unfold unidecode at hc
  simp only [List.mem_flatten, List.mem_map] at hc
  obtain ⟨l, ⟨a, _, rfl⟩, hcl⟩ := hc
  exact unidecodeChar_ascii hcl

lemma unidecode_id {s : List Char} (h : ∀ c ∈ s, c.toNat < 128) : unidecode s = s := by
  induction s with
  | nil => rfl
  | cons a t ih =>
    have ha : unidecodeChar a = [a] := by
      unfold unidecodeChar
      rw [if_pos (h a (List.mem_cons_self a t))]
    rw [unidecode_cons, ha, ih (fun c hc => h c (List.mem_cons_of_mem a hc))]
    rfl


lemma collapseGo_cons_not {d : Char} (hd : pyIsHyphenOrSpace d = false) (b : Bool) (rs : List Char) :
    collapseGo b (d :: rs) = d :: collapseGo false rs := by
  cases b <;> simp [collapseGo, hd]

lemma collapseGo_cons_hs_true {a : Char} (ha : pyIsHyphenOrSpace a = true) (t : List Char) :
    collapseGo true (a :: t) = collapseGo true t := by
  simp [collapseGo, ha]

lemma collapseGo_cons_hs_false {a : Char} (ha : pyIsHyphenOrSpace a = true) (t : List Char) :
    collapseGo false (a :: t) = '-' :: collapseGo true t := by
  simp [collapseGo, ha]

lemma collapseGo_mem {c : Char} : ∀ {b : Bool} {l : List Char}, c ∈ collapseGo b l →
    c.toNat = 45 ∨ (c ∈ l ∧ pyIsHyphenOrSpace c = false) := by
  intro b l
  induction l generalizing b with
  | nil =>
    intro h
    simp [collapseGo] at h
  | cons a t ih =>
    intro h
    cases ha : pyIsHyphenOrSpace a with
    | true =>
      cases b with
      | true =>
        rw [collapseGo_cons_hs_true ha] at h
        rcases ih h with h45 | ⟨hm, hns⟩
        · exact Or.inl h45
        · exact Or.inr ⟨List.mem_cons_of_mem a hm, hns⟩
      | false =>
        rw [collapseGo_cons_hs_false ha] at h
        rcases List.mem_cons.mp h with rfl | h
        · exact Or.inl rfl
        · rcases ih h with h45 | ⟨hm, hns⟩
          · exact Or.inl h45
          · exact Or.inr ⟨List.mem_cons_of_mem a hm, hns⟩
    | false =>
      rw [collapseGo_cons_not ha] at h
      rcases List.mem_cons.mp h with rfl | h
      · exact Or.inr ⟨List.mem_cons_self c t, ha⟩
      · rcases ih h with h45 | ⟨hm, hns⟩
        · exact Or.inl h45
        · exact Or.inr ⟨List.mem_cons_of_mem a hm, hns⟩

lemma collapseGo_head_true : ∀ {l : List Char} {c : Char},
    (collapseGo true l).head? = some c → pyIsHyphenOrSpace c = false := by
  intro l
  induction l with
  | nil =>
    intro c h
    simp [collapseGo] at h
  | cons a t ih =>
    intro c h
    cases ha : pyIsHyphenOrSpace a with
    | true =>
      rw [collapseGo_cons_hs_true ha] at h
      exact ih h
    | false =>
      rw [collapseGo_cons_not ha, List.head?_cons] at h
      obtain rfl := Option.some.inj h
      exact ha

lemma collapseGo_chain : ∀ (b : Bool) (l : List Char),
    List.Chain' (fun x y => ¬(pyIsHyphenOrSpace x = true ∧ pyIsHyphenOrSpace y = true))
      (collapseGo b l) := by
  intro b l
  induction l generalizing b with
  | nil => simp [collapseGo]
  | cons a t ih =>
    cases ha : pyIsHyphenOrSpace a with
    | true =>
      cases b with
      | true =>
        rw [collapseGo_cons_hs_true ha]
        exact ih true
      | false =>
        rw [collapseGo_cons_hs_false ha]
        rw [List.chain'_cons']
        refine ⟨?_, ih true⟩
        intro y hy
        have hfalse := collapseGo_head_true hy
        intro hcontr
        rw [hfalse] at hcontr
        exact Bool.false_ne_true hcontr.2
    | false =>
      rw [collapseGo_cons_not ha]
      rw [List.chain'_cons']
      refine ⟨?_, ih false⟩
      intro y _
      intro hcontr
      rw [ha] at hcontr
      exact Bool.false_ne_true hcontr.1

lemma collapseGo_eq_self : ∀ {l : List Char},
    (∀ c ∈ l, pyIsHyphenOrSpace c = true → c.toNat = 45) →
    List.Chain' (fun x y => ¬(x.toNat = 45 ∧ y.toNat = 45)) l →
    collapseGo false l = l := by
  intro l
  induction l with
  | nil => intro _ _; rfl
  | cons a t ih =>
    intro hall hch
    cases ha : pyIsHyphenOrSpace a with
    | false =>
      rw [collapseGo_cons_not ha]
      congr 1
      exact ih (fun c hc => hall c (List.mem_cons_of_mem a hc)) (List.chain'_cons'.mp hch).2
    | true =>
      have ha45 : a.toNat = 45 := hall a (List.mem_cons_self a t) ha
      have haeq : a = '-' := char_toNat_inj (by rw [ha45]; rfl)
      subst haeq
      rw [collapseGo_cons_hs_false ha]
      congr 1
      cases t with
      | nil => rfl
      | cons d rs =>
        have hd45 := (List.chain'_cons'.mp hch).1 d rfl
        have hd : pyIsHyphenOrSpace d = false := by
          cases hdh : pyIsHyphenOrSpace d with
          | false => rfl
          | true =>
            exact absurd ⟨ha45, hall d (List.mem_cons_of_mem _ (List.mem_cons_self d rs)) hdh⟩ hd45
        have hrec := ih (fun c hc => hall c (List.mem_cons_of_mem _ hc)) (List.chain'_cons'.mp hch).2
        rw [collapseGo_cons_not hd] at hrec ⊢
        exact hrec

lemma collapseGo_all_hs : ∀ {l : List Char}, (∀ c ∈ l, pyIsHyphenOrSpace c = true) →
    collapseGo true l = [] ∧ (l = [] ∨ collapseGo false l = ['-']) := by
  intro l
  induction l with
  | nil => exact fun _ => ⟨rfl, Or.inl rfl⟩
  | cons a t ih =>
    intro hall
    have ha := hall a (List.mem_cons_self a t)
    obtain ⟨h1, _⟩ := ih (fun c hc => hall c (List.mem_cons_of_mem a hc))
    constructor
    · simp [collapseGo, ha, h1]
    · right
      simp [collapseGo, ha, h1]


lemma stripHyphens_isInfix (l : List Char) : stripHyphens l <:+: l := by
  unfold stripHyphens
  exact (List.rdropWhile_prefix _ _).isInfix.trans (List.dropWhile_suffix _).isInfix

lemma stripHyphens_subset {c : Char} {l : List Char} (h : c ∈ stripHyphens l) : c ∈ l :=
  List.Sublist.mem h (stripHyphens_isInfix l).sublist

lemma stripHyphens_head {l : List Char} {c : Char}
    (h : (stripHyphens l).head? = some c) : (c == '-') = false := by
  unfold stripHyphens at h
  obtain ⟨t, ht⟩ := List.rdropWhile_prefix (fun c => c == '-') (l.dropWhile (fun c => c == '-'))
  have hm : (l.dropWhile (fun c => c == '-')).head? = some c := by
    rw [← ht, List.head?_append, h]
    rfl
  have hnot := List.head?_dropWhile_not (fun c => c == '-') l
  rw [hm] at hnot
  exact hnot

lemma stripHyphens_last {l : List Char} {c : Char}
    (h : (stripHyphens l).getLast? = some c) : (c == '-') = false := by
  unfold stripHyphens at h
  have hne : (l.dropWhile (fun c => c == '-')).rdropWhile (fun c => c == '-') ≠ [] := by
    intro hnil
    rw [hnil] at h
    simp at h
  have hlast := List.rdropWhile_last_not (fun c => c == '-') _ hne
  rw [List.getLast?_eq_getLast _ hne] at h
  obtain rfl := Option.some.inj h
  simpa using hlast

lemma stripHyphens_eq_self {l : List Char}
    (hh : ∀ c, l.head? = some c → (c == '-') = false)
    (hl : ∀ c, l.getLast? = some c → (c == '-') = false) :
    stripHyphens l = l := by
  unfold stripHyphens
  have h1 : l.dropWhile (fun c => c == '-') = l := by
    rw [List.dropWhile_eq_self_iff]
    intro hlen
    have hhd : l.head? = some (l.get ⟨0, hlen⟩) := by
      cases l with
      | nil => simp at hlen
      | cons a t => rfl
    have h2 := hh _ hhd
    rw [beq_eq_false_iff_ne] at h2
    simpa using h2
  rw [h1, List.rdropWhile_eq_self_iff]
  intro hne
  simp [hl _ (List.getLast?_eq_getLast l hne)]


lemma generate_slug_chars {s : List Char} : ∀ c ∈ generate_slug s, isSlugOutChar c = true := by
  intro c hc
  unfold generate_slug at hc
  have hc4 := stripHyphens_subset hc
  rcases collapseGo_mem hc4 with h45 | ⟨hc3, hns⟩
  · simp [isSlugOutChar, h45]
  · rw [dropForbiddenChars, List.mem_filter] at hc3
    obtain ⟨hc2, hpred⟩ := hc3
    rw [List.mem_map] at hc2
    obtain ⟨c0, hc0, rfl⟩ := hc2
    have hnup := pyLowerChar_not_upper c0
    simp only [Bool.or_eq_true] at hpred
    rcases hpred with (hw | hsp) | heq
    · have hnsp : pyIsSpace (pyLowerChar c0) = false := by
        cases hsp2 : pyIsSpace (pyLowerChar c0) with
        | false => rfl
        | true =>
          rw [pyIsHyphenOrSpace, hsp2, Bool.or_true] at hns
          exact absurd hns (by simp)
      simp only [pyIsWordChar, Bool.or_eq_true, Bool.and_eq_true, decide_eq_true_eq] at hw
      simp only [isSlugOutChar, Bool.or_eq_true, Bool.and_eq_true, decide_eq_true_eq]
      omega
    · rw [pyIsHyphenOrSpace, hsp, Bool.or_true] at hns
      exact absurd hns (by simp)
    · rw [decide_eq_true_eq] at heq
      rw [heq]
      decide


lemma isSlugOutChar_ranges {c : Char} (h : isSlugOutChar c = true) :
    (97 ≤ c.toNat ∧ c.toNat ≤ 122) ∨ (48 ≤ c.toNat ∧ c.toNat ≤ 57)
      ∨ c.toNat = 95 ∨ c.toNat = 45 := by
  simp only [isSlugOutChar, Bool.or_eq_true, Bool.and_eq_true, decide_eq_true_eq] at h
  tauto

lemma generate_slug_idem (s : List Char) :
    generate_slug (generate_slug s) = generate_slug s := by
  have hchar : ∀ c ∈ generate_slug s, isSlugOutChar c = true := generate_slug_chars
  have h1 : unidecode (generate_slug s) = generate_slug s :=
    unidecode_id (fun c hc => by rcases isSlugOutChar_ranges (hchar c hc) with h | h | h | h <;> omega)
  have h2 : (generate_slug s).map pyLowerChar = generate_slug s := by
    have hfix : ∀ c ∈ generate_slug s, pyLowerChar c = id c := fun c hc =>
      pyLowerChar_fix (by rcases isSlugOutChar_ranges (hchar c hc) with h | h | h | h <;> omega)
    rw [List.map_congr_left hfix, List.map_id]
  have h3 : dropForbiddenChars (generate_slug s) = generate_slug s := by
    rw [dropForbiddenChars, List.filter_eq_self]
    intro c hc
    simp only [Bool.or_eq_true]
    rcases isSlugOutChar_ranges (hchar c hc) with h | h | h | h
    · refine Or.inl (Or.inl ?_)
      simp only [pyIsWordChar, Bool.or_eq_true, Bool.and_eq_true, decide_eq_true_eq]
      omega
    · refine Or.inl (Or.inl ?_)
      simp only [pyIsWordChar, Bool.or_eq_true, Bool.and_eq_true, decide_eq_true_eq]
      omega
    · refine Or.inl (Or.inl ?_)
      simp only [pyIsWordChar, Bool.or_eq_true, Bool.and_eq_true, decide_eq_true_eq]
      omega
    · refine Or.inr ?_
      rw [decide_eq_true_eq]
      exact char_toNat_inj (by rw [h]; rfl)
  have hch : List.Chain' (fun x y : Char => ¬(x.toNat = 45 ∧ y.toNat = 45)) (generate_slug s) := by
    have hc0 := collapseGo_chain false
      (dropForbiddenChars ((unidecode s).map pyLowerChar))
    have hinf := stripHyphens_isInfix
      (collapseHyphenSpaceRuns (dropForbiddenChars ((unidecode s).map pyLowerChar)))
    have hout : List.Chain'
        (fun x y => ¬(pyIsHyphenOrSpace x = true ∧ pyIsHyphenOrSpace y = true))
        (generate_slug s) :=
      List.Chain'.infix hc0 hinf
    refine hout.imp ?_
    intro a b hab ⟨ha, hb⟩
    exact hab ⟨by simp [pyIsHyphenOrSpace, ha], by simp [pyIsHyphenOrSpace, hb]⟩
  have h4 : collapseHyphenSpaceRuns (generate_slug s) = generate_slug s := by
    rw [collapseHyphenSpaceRuns]
    apply collapseGo_eq_self ?_ hch
    intro c hc hhs
    rcases isSlugOutChar_ranges (hchar c hc) with h | h | h | h
    · simp only [pyIsHyphenOrSpace, pyIsSpace, Bool.or_eq_true, decide_eq_true_eq] at hhs
      omega
    · simp only [pyIsHyphenOrSpace, pyIsSpace, Bool.or_eq_true, decide_eq_true_eq] at hhs
      omega
    · simp only [pyIsHyphenOrSpace, pyIsSpace, Bool.or_eq_true, decide_eq_true_eq] at hhs
      omega
    · exact h
  have h5 : stripHyphens (generate_slug s) = generate_slug s := by
    apply stripHyphens_eq_self
    · intro c hhead
      exact stripHyphens_head (l :=
        collapseHyphenSpaceRuns (dropForbiddenChars ((unidecode s).map pyLowerChar))) hhead
    · intro c hlastp
      exact stripHyphens_last (l :=
        collapseHyphenSpaceRuns (dropForbiddenChars ((unidecode s).map pyLowerChar))) hlastp
  calc generate_slug (generate_slug s)
      = stripHyphens (collapseHyphenSpaceRuns (dropForbiddenChars
          ((unidecode (generate_slug s)).map pyLowerChar))) := rfl
    _ = generate_slug s := by rw [h1, h2, h3, h4, h5]

lemma generate_slug_allpunct {s : List Char}
    (h : ∀ c ∈ s, c.toNat < 128 ∧ pyIsWordChar c = false) :
    generate_slug s = [] := by
  have h1 : unidecode s = s := unidecode_id (fun c hc => (h c hc).1)
  have h2 : s.map pyLowerChar = s := by
    have hfix : ∀ c ∈ s, pyLowerChar c = id c := by
      intro c hc
      apply pyLowerChar_fix
      intro hup
      have hw := (h c hc).2
      simp only [pyIsWordChar, Bool.or_eq_true, Bool.and_eq_true, decide_eq_true_eq,
        Bool.or_eq_false_iff, Bool.and_eq_false_iff, decide_eq_false_iff_not] at hw
      omega
    rw [List.map_congr_left hfix, List.map_id]
  have h3 : ∀ c ∈ dropForbiddenChars s, pyIsHyphenOrSpace c = true := by
    intro c hc
    rw [dropForbiddenChars, List.mem_filter] at hc
    obtain ⟨hcs, hpred⟩ := hc
    have hw := (h c hcs).2
    rw [hw] at hpred
    simp only [Bool.false_or, Bool.or_eq_true] at hpred
    rcases hpred with hsp | heq
    · simp [pyIsHyphenOrSpace, hsp]
    · rw [decide_eq_true_eq] at heq
      rw [heq]
      decide
  obtain ⟨_, hF⟩ := collapseGo_all_hs h3
  show stripHyphens (collapseHyphenSpaceRuns (dropForbiddenChars ((unidecode s).map pyLowerChar))) = []
  rw [h1, h2, collapseHyphenSpaceRuns]
  rcases hF with hnil | hdash
  · rw [hnil]
    rfl
  · rw [hdash]
    rfl


theorem c4_generate_slug_contract (s t : List Char) (h : s = t) :
    generate_slug s = generate_slug t
    ∧ generate_slug (generate_slug s) = generate_slug s
    ∧ (∀ c ∈ generate_slug s, isSlugOutChar c = true)
    ∧ (∀ c, (generate_slug s).head? = some c → c ≠ '-')
    ∧ (∀ c, (generate_slug s).getLast? = some c → c ≠ '-')
    ∧ (s = [] → generate_slug s = [])
    ∧ ((∀ c ∈ s, c.toNat < 128 ∧ pyIsWordChar c = false) → generate_slug s = []) := by
  refine ⟨by rw [h], generate_slug_idem s, generate_slug_chars, ?_, ?_, ?_, generate_slug_allpunct⟩
  · intro c hc
    have := stripHyphens_head (l :=
      collapseHyphenSpaceRuns (dropForbiddenChars ((unidecode s).map pyLowerChar))) hc
    exact beq_eq_false_iff_ne.mp this
  · intro c hc
    have := stripHyphens_last (l :=
      collapseHyphenSpaceRuns (dropForbiddenChars ((unidecode s).map pyLowerChar))) hc
    exact beq_eq_false_iff_ne.mp this
  · intro hs
    rw [hs]
    rfl

theorem c4_witness :
    generate_slug (generate_slug ("  Hello,  World!--x  ".data))
        = generate_slug ("  Hello,  World!--x  ".data)
    ∧ generate_slug ("!? .,;--  ".data) = [] :=
  ⟨(c4_generate_slug_contract ("  Hello,  World!--x  ".data) ("  Hello,  World!--x  ".data) rfl).2.1,
   (c4_generate_slug_contract ("!? .,;--  ".data) ("!? .,;--  ".data) rfl).2.2.2.2.2.2 (by decide)⟩

end Blogicum
